import Mathlib

/-!
Shallow embedding of `groqflow/justgroqit/export.py`: the five build
stages (`ReceiveOnnxModel`, `ExportPytorchModel`, `OptimizeOnnxModel`,
`CheckOnnxCompatibility`, `ConvertOnnxToFp16`) and the shared artifact
validator `_check_model`, together with proofs of the spec's claims
about them.

Python-level mutation of `state` and raising of exceptions are embedded
by making every `fire` return a `FireResult` record carrying the
(possibly mutated) state, the file system, the emitted log lines, the
recorded external-collaborator calls, and the raised error if one was
raised: a Python `raise` after some mutations corresponds to a
`FireResult` with `err = some e` whose `state`/`fs` fields show those
mutations, exactly as the in-place-mutated Python objects would.

External collaborators (torch's ONNX exporter, onnxruntime's optimizer,
onnxmltools' fp16 converter, the operator-support oracle, the SDK
dependency check) are parameters collected in `Externals`; the ONNX
structural checker's verdict is carried by the file content itself
(`OnnxModelProto.checkOk`).
-/

/-- Abstract tensor values: the pipeline never inspects tensor contents,
only routes them, so a tensor is modelled as an opaque identifier. -/
structure Tensor where
  id : Nat
deriving Repr, DecidableEq

/-- The metadata of an ONNX protobuf that `export.py` reads: the declared
opset version (`model.opset_import`), the declared graph-input dimensions
(`model.graph.input[..].type.tensor_type.shape.dim[..].dim_value`, where a
symbolic dimension is reported as `dim_value` 0), and whether
`onnx.checker.check_model` accepts the file (`checkOk`, the external
structural checker's verdict on this content). -/
structure OnnxModelProto where
  opset : Nat
  inputDims : List (List Int)
  checkOk : Bool
deriving Repr, DecidableEq

/-- Content of a file on disk: an ONNX protobuf, or the serialized
reference-inputs artifact written by `tensor_helpers.save_inputs`. -/
inductive FileData where
  | onnx (m : OnnxModelProto)
  | inputsData (l : List (String × Option Tensor))
deriving Repr, DecidableEq

/-- The file system: a map from path to file content, `none` when no file
exists at the path. -/
def FS : Type := String → Option FileData

/-- Write (create or overwrite) a file, as `torch.onnx.export`,
`onnxruntime` serialization, `onnxmltools.utils.save_model` and
`tensor_helpers.save_inputs` do at their output path. -/
def fsWrite (path : String) (data : FileData) (fs : FS) : FS :=
  fun p => if p = path then some data else fs p

/-- Move a file, as `shutil.move` does: the destination gets the source's
content and the source ceases to exist. -/
def fsMove (src dst : String) (fs : FS) : FS :=
  fun p => if p = dst then fs src else if p = src then none else fs p

/-- The errors a `fire` can raise: `groqitStageError` embeds
`exp.GroqitStageError`, `valueError` embeds the plain `ValueError` raised
for a misnamed input in `ExportPytorchModel.fire`, and `externalError`
embeds an exception propagating uncaught out of an external collaborator
(`onnx.load`, `torch.onnx.export`, `onnxruntime.InferenceSession`,
`onnxmltools`, or an out-of-range list index). -/
inductive StageError where
  | groqitStageError (msg : String)
  | valueError (msg : String)
  | externalError (msg : String)
deriving Repr, DecidableEq

/-- A record of one invocation of an external collaborator, in the order
the stage performed them. -/
inductive ExtCall where
  | torchOnnxExport (dummy_inputs : List (Option Tensor))
      (dummy_input_names : List String) (out_path : String)
  | saveInputs (path : String)
  | inferenceSession (input_onnx out_path : String)
  | convertFloat16 (input_onnx out_path : String)
  | checkOps (input_onnx : String) (use_sdk : Bool)
deriving Repr, DecidableEq

/-- The per-stage diagnostic ledger `state.info` (the fields of
`groqflow.common.build` that `export.py` touches). -/
structure Info where
  base_onnx_exported : Bool := false
  opt_onnx_exported : Bool := false
  converted_onnx_exported : Bool := false
  opset : Nat := 0
  opt_onnx_ops : List String := []
  opt_onnx_unsupported_ops : List String := []
  opt_onnx_all_ops_supported : Bool := false
deriving Repr, DecidableEq

/-- The runtime type of `state.model`: a `str` path, a `torch.nn.Module`
(whose `forward` signature declares the listed parameter names, in
order), a `torch.jit.ScriptModule`, or any other Python object. -/
inductive Model where
  | path (p : String)
  | torchModule (forwardParams : List String)
  | scriptModule
  | other (descr : String)
deriving Repr, DecidableEq

/-- The fields of `build.State` that `export.py` reads or writes.
`inputs` is the ordered dict of named example inputs; after
`ExportPytorchModel` it may map names to `none` (Python `None`)
placeholders, hence the `Option Tensor` values. -/
structure State where
  model : Model
  inputs : List (String × Option Tensor)
  base_onnx_file : String
  opt_onnx_file : String
  converted_onnx_file : String
  original_inputs_file : String
  intermediate_results : List String
  info : Info
  use_sdk : Bool
deriving Repr, DecidableEq

/-- The external collaborators, as oracles: `torchExport` is
`torch.onnx.export` (given the positional inputs and names, it either
raises or determines the ONNX content written at the output path),
`optimize` is onnxruntime's graph optimizer, `convertFp16` is
onnxmltools' fp16 converter, `checkOps` is the operator-support oracle
`onnx_helpers.check_ops` returning (all ops, unsupported ops), and
`devtoolsOk` is whether `sdk.check_dependencies` succeeds. -/
structure Externals where
  torchExport : List (Option Tensor) → List String → Except String OnnxModelProto
  optimize : OnnxModelProto → Except String OnnxModelProto
  convertFp16 : OnnxModelProto → Except String OnnxModelProto
  checkOps : String → Bool → List String × List String
  devtoolsOk : Bool

/-- Outcome of one `fire` call: the raised error (if any), the state and
file system as they stand at the moment of return or raise, the printed
log lines, and the external calls performed. -/
structure FireResult where
  err : Option StageError
  state : State
  fs : FS
  log : List String
  calls : List ExtCall

/-- Modelled from the spec: the recommended opset threshold
`build.DEFAULT_ONNX_OPSET` of the missing module `groqflow/common/build.py`
("warn if below a recommended-but-supported threshold"); the source's own
error text ("try upgrading the model to opset 13") pins the value. -/
def DEFAULT_ONNX_OPSET : Nat := 13

/-- Modelled from the spec: the minimum supported opset
`build.MINIMUM_ONNX_OPSET` of the missing module `groqflow/common/build.py`
("reject if format version below a minimum-supported threshold"); the
source's own error text ("Opset < 11 is not supported") pins the value. -/
def MINIMUM_ONNX_OPSET : Nat := 11

/-- Python's `sep.join(l)`. -/
def pyJoin (sep : String) : List String → String
  | [] => ""
  | [a] => a
  | a :: b :: rest => a ++ sep ++ pyJoin sep (b :: rest)

/-- Python's `s.endswith(t)`, via the character lists. -/
def pyEndsWith (s t : String) : Bool :=
  t.data.isSuffixOf s.data

/-- Python's `repr(list)`-style rendering of the parameter list, as the
f-string interpolation of `all_args` produces. -/
def pyStrList (l : List String) : String :=
  "[" ++ pyJoin ", " (l.map (fun a => "'" ++ a ++ "'")) ++ "]"

/-- Python dict lookup `state.inputs[arg]` on the ordered mapping
(first binding wins; names are unique in a dict, so this is the
binding). -/
def getInput (l : List (String × Option Tensor)) (k : String) : Option Tensor :=
  match l.find? (fun p => p.1 == k) with
  | some p => p.2
  | none => none

/-- Membership test `arg in d` on the dict's keys. -/
def hasInput (l : List (String × Option Tensor)) (k : String) : Bool :=
  l.any (fun p => p.1 == k)

/-- The artifact validator `_check_model` of `export.py`: report whether
the file exists and passes `onnx.checker.check_model`, printing the
corresponding messages; a `ValidationError` from the checker is caught
and turned into `false` (a missing or non-ONNX or rejected file fails
the check). Returns the verdict together with the printed lines. -/
def _check_model (fs : FS) (onnx_file success_message fail_message : String) :
    Bool × List String :=
  match fs onnx_file with
  | none => (false, [fail_message])
  | some (FileData.onnx m) =>
      if m.checkOk then
        (true, [success_message, "\tSuccessfully checked onnx file"])
      else
        (false, [success_message, "\tError while checking generated ONNX file"])
  | some (FileData.inputsData _) =>
      (false, [success_message, "\tError while checking generated ONNX file"])

/-- Message raised by `ReceiveOnnxModel.fire` when `state.model` is not a
`str`. -/
def receiveWrongTypeMsg : String :=
  "The current stage (ReceiveOnnxModel) is only compatible with ONNX files, however the stage received a model of a different type."

/-- Message raised by `ReceiveOnnxModel.fire` when the path does not end
in `.onnx`. -/
def receiveNotOnnxPathMsg (p : String) : String :=
  "The current stage (ReceiveOnnxModel) expects a path to ONNX model, however the stage received " ++ p ++ "."

/-- Message raised by `ReceiveOnnxModel.fire` on dynamic input
dimensions. -/
def dynamicDimsMsg (logfile : String) : String :=
  "The received model has dynamic input dimensions. Please freeze the model with static input dimensions. More information may be available in the log file at **" ++ logfile ++ "**"

/-- Advisory printed by `ReceiveOnnxModel.fire` for a supported but
below-recommended opset (the source prints a non-f-string, so the braces
appear literally; the advisory's identity, not its rendering, is what
the claims use). -/
def opsetAdvisoryMsg : String :=
  " \n The received model has an opset. Though this opset is supported we recommend upgrading the model."

/-- Message raised by `ReceiveOnnxModel.fire` for an opset below the
minimum supported. -/
def opsetTooLowMsg (opset : Nat) (logfile : String) : String :=
  "The received model has an opset " ++ toString opset ++ ". Opset < 11 is not supported. Please try upgrading the model to opset 13. More information may be available in the log file at **" ++ logfile ++ "**"

/-- Message raised by `ReceiveOnnxModel.fire` when the post-move check of
the base ONNX file fails. -/
def receiveProcessFailMsg (logfile : String) : String :=
  "Unable to process ONNX Model. We recommend that you verify the source of the model. Any optimizations performed on the model could result in an error. More information may be available in the log file at **" ++ logfile ++ "**"

/-- Tail of `ReceiveOnnxModel.fire` (from `shutil.move` on): move the
model file into the `base_onnx_file` slot, persist the inputs, run the
artifact validator, and either record the artifact in
`intermediate_results` or raise. -/
def receiveFinish (logfile : String) (s : State) (fs : FS) (mpath : String)
    (log : List String) : FireResult :=
  let fs1 := fsMove mpath s.base_onnx_file fs
  let fs2 := fsWrite s.original_inputs_file (FileData.inputsData s.inputs) fs1
  let checked := _check_model fs2 s.base_onnx_file
      "\tSuccess receiving ONNX Model" "\tFailed receiving ONNX Model"
  let s1 : State := { s with info.base_onnx_exported := checked.1 }
  if checked.1 then
    { err := none,
      state := { s1 with intermediate_results := [s1.base_onnx_file] },
      fs := fs2, log := log ++ checked.2,
      calls := [ExtCall.saveInputs s.original_inputs_file] }
  else
    { err := some (StageError.groqitStageError (receiveProcessFailMsg logfile)),
      state := s1, fs := fs2, log := log ++ checked.2,
      calls := [ExtCall.saveInputs s.original_inputs_file] }

/-- The body of `ReceiveOnnxModel.fire`, line for line: type check on
`state.model`, `.onnx` extension check, the no-op re-zip of
`state.inputs`, `onnx.load`, the dynamic-dimension check (a dimension is
dynamic when its `dim_value` is below 1), the opset if/elif, then the
move/persist/validate tail. -/
def receiveOnnxFire (logfile : String) (s : State) (fs : FS) : FireResult :=
  match s.model with
  | Model.path mpath =>
    if pyEndsWith mpath ".onnx" then
      let s := { s with
        inputs := List.zip (s.inputs.map Prod.fst) (s.inputs.map Prod.snd) }
      match fs mpath with
      | some (FileData.onnx m) =>
        let opset := m.opset
        let input_shapes := m.inputDims
        if input_shapes.any (fun dims => dims.any (fun d => decide (d < 1))) then
          { err := some (StageError.groqitStageError (dynamicDimsMsg logfile)),
            state := s, fs := fs, log := [], calls := [] }
        else if opset < DEFAULT_ONNX_OPSET ∧ opset ≥ MINIMUM_ONNX_OPSET then
          receiveFinish logfile s fs mpath [opsetAdvisoryMsg]
        else if opset < MINIMUM_ONNX_OPSET then
          { err := some (StageError.groqitStageError (opsetTooLowMsg opset logfile)),
            state := s, fs := fs, log := [], calls := [] }
        else
          receiveFinish logfile s fs mpath []
      | _ =>
        { err := some (StageError.externalError "onnx.load failed"),
          state := s, fs := fs, log := [], calls := [] }
    else
      { err := some (StageError.groqitStageError (receiveNotOnnxPathMsg mpath)),
        state := s, fs := fs, log := [], calls := [] }
  | _ =>
    { err := some (StageError.groqitStageError receiveWrongTypeMsg),
      state := s, fs := fs, log := [], calls := [] }

/-- Message raised by `ExportPytorchModel.fire` when `state.model` is
neither a `torch.nn.Module` nor a `torch.jit.ScriptModule`. -/
def exportWrongTypeMsg : String :=
  "The current stage (ExportPytorchModel) is only compatible with models of type torch.nn.Module or torch.jit.ScriptModule, however the stage received a model of a different type."

/-- Message of the `ValueError` raised by `ExportPytorchModel.fire` when
a user-supplied input name is not a parameter of the model's `forward`
method; it carries the offending name and the rendered full parameter
list. -/
def inputNotFoundMsg (inp : String) (all_args : List String) : String :=
  "Input name " ++ inp ++ " not found in the model's forward method. Available inputs are: " ++ pyStrList all_args ++ "\""

/-- Message raised by `ExportPytorchModel.fire` when the exported base
ONNX file fails the artifact validator. -/
def exportProcessFailMsg (logfile : String) : String :=
  "Unable to export model to ONNX using Torch's ONNX exporter. We recommend that you modify your model until it is compatible with this third party software, then re-run groqit(). More information may be available in the log file at **" ++ logfile ++ "**"

/-- Tail of `ExportPytorchModel.fire` (from `state.info.opset = ...` on):
set the opset info field, call `torch.onnx.export` (raises propagate),
re-bind `state.inputs` to `dict(zip(dummy_input_names, dummy_inputs))`,
persist the inputs, run the artifact validator, and either record the
artifact or raise. -/
def exportFinish (logfile : String) (ext : Externals) (s : State) (fs : FS)
    (dummy_inputs : List (Option Tensor)) (dummy_input_names : List String) :
    FireResult :=
  let s1 : State := { s with info.opset := DEFAULT_ONNX_OPSET }
  match ext.torchExport dummy_inputs dummy_input_names with
  | Except.error e =>
    { err := some (StageError.externalError e), state := s1, fs := fs,
      log := [],
      calls := [ExtCall.torchOnnxExport dummy_inputs dummy_input_names s1.base_onnx_file] }
  | Except.ok proto =>
    let fs1 := fsWrite s1.base_onnx_file (FileData.onnx proto) fs
    let s2 : State := { s1 with inputs := List.zip dummy_input_names dummy_inputs }
    let fs2 := fsWrite s2.original_inputs_file (FileData.inputsData s2.inputs) fs1
    let checked := _check_model fs2 s2.base_onnx_file
        "\tSuccess exporting model to ONNX" "\tFailed exporting model to ONNX"
    let s3 : State := { s2 with info.base_onnx_exported := checked.1 }
    if checked.1 then
      { err := none,
        state := { s3 with intermediate_results := [s3.base_onnx_file] },
        fs := fs2, log := checked.2,
        calls := [ExtCall.torchOnnxExport dummy_inputs dummy_input_names s1.base_onnx_file,
                  ExtCall.saveInputs s2.original_inputs_file] }
    else
      { err := some (StageError.groqitStageError (exportProcessFailMsg logfile)),
        state := s3, fs := fs2, log := checked.2,
        calls := [ExtCall.torchOnnxExport dummy_inputs dummy_input_names s1.base_onnx_file,
                  ExtCall.saveInputs s2.original_inputs_file] }

/-- The body of `ExportPytorchModel.fire`, line for line: type check on
`state.model`; for a `ScriptModule`, positional inputs are the dict's
values in order with no name validation; for an `nn.Module`, every
user-supplied input name is checked against the `forward` signature
(raising `ValueError` at the first mismatch), then one positional value
is built per declared parameter (the user's tensor when supplied, `None`
otherwise); then the export/persist/validate tail. -/
def exportPytorchFire (logfile : String) (ext : Externals) (s : State) (fs : FS) :
    FireResult :=
  match s.model with
  | Model.scriptModule =>
    let dummy_inputs := s.inputs.map Prod.snd
    let dummy_input_names := s.inputs.map Prod.fst
    exportFinish logfile ext s fs dummy_inputs dummy_input_names
  | Model.torchModule all_args =>
    let user_provided_args := s.inputs.map Prod.fst
    match user_provided_args.find? (fun inp => !(all_args.contains inp)) with
    | some inp =>
      { err := some (StageError.valueError (inputNotFoundMsg inp all_args)),
        state := s, fs := fs, log := [], calls := [] }
    | none =>
      let dummy_inputs := all_args.map (fun arg =>
        if user_provided_args.contains arg then getInput s.inputs arg else none)
      let dummy_input_names := all_args
      exportFinish logfile ext s fs dummy_inputs dummy_input_names
  | _ =>
    { err := some (StageError.groqitStageError exportWrongTypeMsg),
      state := s, fs := fs, log := [], calls := [] }

/-- Message raised by `OptimizeOnnxModel.fire` when the optimized file
fails the artifact validator. -/
def optimizeProcessFailMsg (logfile : String) : String :=
  "Unable to optimize ONNX file using ONNX runtime. We recommend that you modify your model until it is compatible with this third party software, then re-run groqit(). More information may be available in the log file at **" ++ logfile ++ "**"

/-- The body of `OptimizeOnnxModel.fire`: read
`state.intermediate_results[0]` (an out-of-range index raises), run
onnxruntime with `optimized_model_filepath = state.opt_onnx_file`
(which writes the optimized model there on success and raises on
failure, including when the input path has no loadable ONNX file), run
the artifact validator, and either record the artifact or raise. -/
def optimizeOnnxFire (logfile : String) (ext : Externals) (s : State) (fs : FS) :
    FireResult :=
  match s.intermediate_results with
  | [] =>
    { err := some (StageError.externalError "IndexError: list index out of range"),
      state := s, fs := fs, log := [], calls := [] }
  | input_onnx :: _ =>
    match fs input_onnx with
    | some (FileData.onnx m) =>
      match ext.optimize m with
      | Except.error e =>
        { err := some (StageError.externalError e), state := s, fs := fs,
          log := [],
          calls := [ExtCall.inferenceSession input_onnx s.opt_onnx_file] }
      | Except.ok m1 =>
        let fs1 := fsWrite s.opt_onnx_file (FileData.onnx m1) fs
        let checked := _check_model fs1 s.opt_onnx_file
            "\tSuccess optimizing ONNX model" "\tFailed optimizing ONNX model"
        let s1 : State := { s with info.opt_onnx_exported := checked.1 }
        if checked.1 then
          { err := none,
            state := { s1 with intermediate_results := [s1.opt_onnx_file] },
            fs := fs1, log := checked.2,
            calls := [ExtCall.inferenceSession input_onnx s.opt_onnx_file] }
        else
          { err := some (StageError.groqitStageError (optimizeProcessFailMsg logfile)),
            state := s1, fs := fs1, log := checked.2,
            calls := [ExtCall.inferenceSession input_onnx s.opt_onnx_file] }
    | _ =>
      { err := some (StageError.externalError "onnxruntime failed to load the input model"),
        state := s, fs := fs, log := [],
        calls := [ExtCall.inferenceSession input_onnx s.opt_onnx_file] }

/-- Message raised by `CheckOnnxCompatibility.fire` when
`sdk.check_dependencies` fails. -/
def depsFailMsg : String :=
  "GroqFlow devtools dependencies are not available."

/-- Message raised by `CheckOnnxCompatibility.fire` for unsupported
operations; `ops` is the comma-joined unsupported-operator list. -/
def compatibilityMsg (ops : String) : String :=
  "You model contains ONNX operation(s) that are not supported by Groq Compiler: **" ++ ops ++ "** Please replace these operation(s) in your model or contact sales@groq.com to request improved operation support in Groq Compiler."

/-- The body of `CheckOnnxCompatibility.fire`: check SDK dependencies,
read `state.intermediate_results[0]`, query the operator-support oracle,
record its answer in the info ledger, print the unsupported count, set
`opt_onnx_all_ops_supported`, and raise (naming every unsupported
operator, comma-joined) unless the unsupported list is empty and the
overall operator list is non-empty. -/
def checkCompatibilityFire (ext : Externals) (s : State) (fs : FS) : FireResult :=
  if ext.devtoolsOk then
    match s.intermediate_results with
    | [] =>
      { err := some (StageError.externalError "IndexError: list index out of range"),
        state := s, fs := fs, log := [], calls := [] }
    | input_onnx :: _ =>
      let queried := ext.checkOps input_onnx s.use_sdk
      let s1 : State := { s with
        info.opt_onnx_ops := queried.1,
        info.opt_onnx_unsupported_ops := queried.2 }
      let log := ["Model has " ++ toString s1.info.opt_onnx_unsupported_ops.length ++ " unsupported ops"]
      let s2 : State := { s1 with
        info.opt_onnx_all_ops_supported :=
          decide (s1.info.opt_onnx_unsupported_ops.length = 0 ∧
                  s1.info.opt_onnx_ops.length ≠ 0) }
      if s2.info.opt_onnx_all_ops_supported then
        { err := none, state := s2, fs := fs, log := log,
          calls := [ExtCall.checkOps input_onnx s.use_sdk] }
      else
        { err := some (StageError.groqitStageError
            (compatibilityMsg (pyJoin ", " s2.info.opt_onnx_unsupported_ops))),
          state := s2, fs := fs, log := log,
          calls := [ExtCall.checkOps input_onnx s.use_sdk] }
  else
    { err := some (StageError.groqitStageError depsFailMsg),
      state := s, fs := fs, log := [], calls := [] }

/-- Message raised by `ConvertOnnxToFp16.fire` when the converted file
fails the artifact validator. -/
def convertProcessFailMsg (logfile : String) : String :=
  "Attempted to use onnxmltools, a third party library, to convert your model to the float16 datatype, however this operation was not successful. More information may be available in the log file at **" ++ logfile ++ "**"

/-- The body of `ConvertOnnxToFp16.fire`: read
`state.intermediate_results[0]`, load it (`onnx.load_model` raises when
no loadable ONNX file is there), convert to fp16 via onnxmltools
(raises propagate), save the result at `state.converted_onnx_file`, run
the artifact validator, and either record the artifact or raise. -/
def convertFp16Fire (logfile : String) (ext : Externals) (s : State) (fs : FS) :
    FireResult :=
  match s.intermediate_results with
  | [] =>
    { err := some (StageError.externalError "IndexError: list index out of range"),
      state := s, fs := fs, log := [], calls := [] }
  | input_onnx :: _ =>
    match fs input_onnx with
    | some (FileData.onnx fp32_model) =>
      match ext.convertFp16 fp32_model with
      | Except.error e =>
        { err := some (StageError.externalError e), state := s, fs := fs,
          log := [],
          calls := [ExtCall.convertFloat16 input_onnx s.converted_onnx_file] }
      | Except.ok fp16_model =>
        let output_path := s.converted_onnx_file
        let fs1 := fsWrite output_path (FileData.onnx fp16_model) fs
        let checked := _check_model fs1 s.converted_onnx_file
            "\tSuccess converting ONNX model to fp16" "\tFailed converting ONNX model to fp16"
        let s1 : State := { s with info.converted_onnx_exported := checked.1 }
        if checked.1 then
          { err := none,
            state := { s1 with intermediate_results := [output_path] },
            fs := fs1, log := checked.2,
            calls := [ExtCall.convertFloat16 input_onnx s.converted_onnx_file] }
        else
          { err := some (StageError.groqitStageError (convertProcessFailMsg logfile)),
            state := s1, fs := fs1, log := checked.2,
            calls := [ExtCall.convertFloat16 input_onnx s.converted_onnx_file] }
    | _ =>
      { err := some (StageError.externalError "onnx.load_model failed"),
        state := s, fs := fs, log := [],
        calls := [] }

/-- The positional inputs of the first recorded `torch.onnx.export`
invocation, if one was performed. -/
def exportArgsOf : List ExtCall → Option (List (Option Tensor))
  | [] => none
  | ExtCall.torchOnnxExport d _ _ :: _ => some d
  | _ :: rest => exportArgsOf rest

/-- The input names of the first recorded `torch.onnx.export`
invocation, if one was performed. -/
def exportNamesOf : List ExtCall → Option (List String)
  | [] => none
  | ExtCall.torchOnnxExport _ n _ :: _ => some n
  | _ :: rest => exportNamesOf rest

/-- The Python re-zip `dict(zip(d.keys(), d.values()))` is the identity
on an ordered mapping. -/
theorem zip_fst_snd {α β : Type} (l : List (α × β)) :
    List.zip (l.map Prod.fst) (l.map Prod.snd) = l := by
  induction l with
  | nil => rfl
  | cons a rest ih => simp [ih]

/-- Every element of a list occurs, as a character run, inside the
comma-joined rendering of that list. -/
theorem pyJoin_mem_infix (sep : String) :
    ∀ (l : List String) (x : String), x ∈ l →
      ∃ a b, (pyJoin sep l).data = a ++ x.data ++ b := by
  intro l
  induction l with
  | nil => intro x hx; cases hx
  | cons y rest ih =>
    intro x hx
    match rest, hx with
    | [], hx =>
      have hxy : x = y := by cases hx with
        | head => rfl
        | tail _ h => cases h
      exact ⟨[], [], by simp [pyJoin, hxy]⟩
    | z :: rest1, hx =>
      cases hx with
      | head =>
        exact ⟨[], sep.data ++ (pyJoin sep (z :: rest1)).data, by
          simp [pyJoin, String.data_append]⟩
      | tail _ h =>
        obtain ⟨a, b, hab⟩ := ih x h
        exact ⟨y.data ++ sep.data ++ a, b, by
          simp [pyJoin, String.data_append, hab]⟩

/-- Replacing a structure's field by its own value is the identity. -/
theorem state_inputs_eta (s : State) : { s with inputs := s.inputs } = s := rfl

/-- C1: for every ONNX model whose declared graph inputs include a
non-positive (or symbolic, reported as dim_value 0 or -1) dimension,
`ReceiveOnnxModel.fire` raises a `GroqitStageError` (the dynamic-shape
configuration error) and neither the file system nor the state is
touched: in particular `state.base_onnx_file` is not written and
`state.intermediate_results` is unchanged, and no external collaborator
was invoked. -/
theorem receive_dynamic_dims_rejects (logfile : String) (s : State) (fs : FS)
    (mpath : String) (m : OnnxModelProto)
    (hm : s.model = Model.path mpath)
    (hext : pyEndsWith mpath ".onnx" = true)
    (hload : fs mpath = some (FileData.onnx m))
    (hdyn : ∃ dims ∈ m.inputDims, ∃ d ∈ dims, d < 1) :
    (receiveOnnxFire logfile s fs).err =
      some (StageError.groqitStageError (dynamicDimsMsg logfile)) ∧
    (receiveOnnxFire logfile s fs).fs = fs ∧
    (receiveOnnxFire logfile s fs).state = s ∧
    (receiveOnnxFire logfile s fs).calls = [] := by
  have hany : m.inputDims.any (fun dims => dims.any (fun d => decide (d < 1))) = true := by
    rw [List.any_eq_true]
    obtain ⟨dims, hdims, d, hd, hlt⟩ := hdyn
    exact ⟨dims, hdims, List.any_eq_true.mpr ⟨d, hd, decide_eq_true hlt⟩⟩
  obtain ⟨mo, inp, bf, optf, convf, origf, ir, inf, usdk⟩ := s
  have hm1 : mo = Model.path mpath := hm
  subst hm1
  simp [receiveOnnxFire, hext, hload, hany, zip_fst_snd]

/-- A concrete model file with a -1 input dimension on which the
dynamic-shape rejection of C1 is exhibited. -/
def dynFS : FS := fun p =>
  if p = "model.onnx" then some (FileData.onnx ⟨13, [[1, -1, 224]], true⟩) else none

/-- A concrete build state pointing `state.model` at the dynamic-shape
model file of `dynFS`. -/
def dynState : State :=
  { model := Model.path "model.onnx",
    inputs := [("x", some ⟨1⟩)],
    base_onnx_file := "build-base.onnx",
    opt_onnx_file := "build-opt.onnx",
    converted_onnx_file := "build-f16.onnx",
    original_inputs_file := "inputs.npy",
    intermediate_results := [],
    info := {},
    use_sdk := false }

/-- Witness for C1 at a concrete dynamic-shape model. -/
theorem receive_dynamic_dims_rejects_witness :
    (receiveOnnxFire "log.txt" dynState dynFS).err =
      some (StageError.groqitStageError (dynamicDimsMsg "log.txt")) ∧
    (receiveOnnxFire "log.txt" dynState dynFS).fs = dynFS ∧
    (receiveOnnxFire "log.txt" dynState dynFS).state = dynState ∧
    (receiveOnnxFire "log.txt" dynState dynFS).calls = [] :=
  receive_dynamic_dims_rejects "log.txt" dynState dynFS "model.onnx"
    ⟨13, [[1, -1, 224]], true⟩ rfl (by decide) (by decide)
    ⟨[1, -1, 224], by decide, -1, by decide, by decide⟩

/-- C6: the artifact validator `_check_model` is a total function (the
embedding catches the checker's `ValidationError`, so no exception
escapes): it returns `false` when no file exists at the path, `true`
exactly when the file exists, is an ONNX file and the structural checker
accepts it, and `false` (instead of propagating the failure) when the
structural check rejects the file. -/
theorem check_model_total_cases (fs : FS) (f sm fm : String) :
    (fs f = none → (_check_model fs f sm fm).1 = false) ∧
    (∀ m : OnnxModelProto, fs f = some (FileData.onnx m) →
        ((_check_model fs f sm fm).1 = true ↔ m.checkOk = true)) ∧
    (∀ l, fs f = some (FileData.inputsData l) →
        (_check_model fs f sm fm).1 = false) := by
  refine ⟨?_, ?_, ?_⟩
  · intro h; simp [_check_model, h]
  · intro m h
    cases hc : m.checkOk <;> simp [_check_model, h, hc]
  · intro l h; simp [_check_model, h]

/-- A file system with one valid ONNX file, one checker-rejected ONNX
file, and nothing else, on which C6's cases are exhibited. -/
def chkFS : FS := fun p =>
  if p = "good.onnx" then some (FileData.onnx ⟨13, [[1]], true⟩)
  else if p = "bad.onnx" then some (FileData.onnx ⟨13, [[1]], false⟩)
  else none

/-- Witness for C6: all three cases of the validator at concrete
files. -/
theorem check_model_total_cases_witness :
    (_check_model chkFS "missing.onnx" "ok" "no").1 = false ∧
    (_check_model chkFS "good.onnx" "ok" "no").1 = true ∧
    (_check_model chkFS "bad.onnx" "ok" "no").1 = false :=
  ⟨(check_model_total_cases chkFS "missing.onnx" "ok" "no").1 (by decide),
   ((check_model_total_cases chkFS "good.onnx" "ok" "no").2.1 ⟨13, [[1]], true⟩
      (by decide)).mpr rfl,
   by
    have h := (check_model_total_cases chkFS "bad.onnx" "ok" "no").2.1
      ⟨13, [[1]], false⟩ (by decide)
    revert h
    cases hv : (_check_model chkFS "bad.onnx" "ok" "no").1
    · intro _; rfl
    · intro h; exact absurd ((h.mp rfl)) (by decide)⟩

/-- Outcome of the tail of `ReceiveOnnxModel.fire`: with a loadable ONNX
model at the source path and distinct base/inputs artifact paths, the
moved file is what the validator sees, so the stage raises exactly when
the structural checker rejects the model, and the advisory log passed in
is preserved in front of the validator's messages. -/
theorem receiveFinish_spec (logfile : String) (s : State) (fs : FS) (mpath : String)
    (log : List String) (m : OnnxModelProto)
    (hload : fs mpath = some (FileData.onnx m))
    (hdiff : s.base_onnx_file ≠ s.original_inputs_file) :
    ((receiveFinish logfile s fs mpath log).err =
       if m.checkOk then none
       else some (StageError.groqitStageError (receiveProcessFailMsg logfile))) ∧
    (receiveFinish logfile s fs mpath log).log =
       log ++ (if m.checkOk
               then ["\tSuccess receiving ONNX Model", "\tSuccessfully checked onnx file"]
               else ["\tSuccess receiving ONNX Model",
                     "\tError while checking generated ONNX file"]) := by
  have hb : (fsWrite s.original_inputs_file (FileData.inputsData s.inputs)
      (fsMove mpath s.base_onnx_file fs)) s.base_onnx_file = some (FileData.onnx m) := by
    simp [fsWrite, fsMove, hdiff, hload]
  cases hc : m.checkOk <;>
    simp [receiveFinish, _check_model, hb, hc]

/-- Control-flow of `ReceiveOnnxModel.fire` on a loadable, static-shape
model path: the stage reduces to the opset if/elif followed by the
move/persist/validate tail. -/
theorem receiveOnnxFire_static_eq (logfile : String) (s : State) (fs : FS)
    (mpath : String) (m : OnnxModelProto)
    (hm : s.model = Model.path mpath)
    (hext : pyEndsWith mpath ".onnx" = true)
    (hload : fs mpath = some (FileData.onnx m))
    (hnone : m.inputDims.any (fun dims => dims.any (fun d => decide (d < 1))) = false) :
    receiveOnnxFire logfile s fs =
      if m.opset < DEFAULT_ONNX_OPSET ∧ m.opset ≥ MINIMUM_ONNX_OPSET then
        receiveFinish logfile s fs mpath [opsetAdvisoryMsg]
      else if m.opset < MINIMUM_ONNX_OPSET then
        { err := some (StageError.groqitStageError (opsetTooLowMsg m.opset logfile)),
          state := s, fs := fs, log := [], calls := [] }
      else
        receiveFinish logfile s fs mpath [] := by
  obtain ⟨mo, inp, bf, optf, convf, origf, ir, inf, usdk⟩ := s
  have hm1 : mo = Model.path mpath := hm
  subst hm1
  simp [receiveOnnxFire, hext, hload, hnone, zip_fst_snd]

/-- C3: for a loadable static-shape ONNX artifact (with distinct
base/inputs artifact paths and a checker-accepted model),
`ReceiveOnnxModel.fire` is a three-way case split on the declared opset:
below the minimum supported opset it raises a `GroqitStageError` (and
touches nothing); at or above the minimum but below the recommended
(default) opset it succeeds and the advisory message is in its log; at
or above the recommended opset it succeeds and the advisory message is
not in its log. -/
theorem receive_opset_three_way (logfile : String) (s : State) (fs : FS)
    (mpath : String) (m : OnnxModelProto)
    (hm : s.model = Model.path mpath)
    (hext : pyEndsWith mpath ".onnx" = true)
    (hload : fs mpath = some (FileData.onnx m))
    (hstatic : ∀ dims ∈ m.inputDims, ∀ d ∈ dims, 1 ≤ d)
    (hdiff : s.base_onnx_file ≠ s.original_inputs_file)
    (hchk : m.checkOk = true) :
    (m.opset < MINIMUM_ONNX_OPSET →
       (receiveOnnxFire logfile s fs).err =
         some (StageError.groqitStageError (opsetTooLowMsg m.opset logfile)) ∧
       (receiveOnnxFire logfile s fs).fs = fs ∧
       (receiveOnnxFire logfile s fs).state = s) ∧
    (MINIMUM_ONNX_OPSET ≤ m.opset → m.opset < DEFAULT_ONNX_OPSET →
       (receiveOnnxFire logfile s fs).err = none ∧
       opsetAdvisoryMsg ∈ (receiveOnnxFire logfile s fs).log) ∧
    (DEFAULT_ONNX_OPSET ≤ m.opset →
       (receiveOnnxFire logfile s fs).err = none ∧
       opsetAdvisoryMsg ∉ (receiveOnnxFire logfile s fs).log) := by
  have hnone : m.inputDims.any (fun dims => dims.any (fun d => decide (d < 1))) = false := by
    rw [List.any_eq_false]
    intro dims hdims
    simp only [List.any_eq_true, not_exists, not_and, decide_eq_true_eq]
    intro d hd
    exact not_lt.mpr (hstatic dims hdims d hd)
  have heq := receiveOnnxFire_static_eq logfile s fs mpath m hm hext hload hnone
  have hfinA := receiveFinish_spec logfile s fs mpath [opsetAdvisoryMsg] m hload hdiff
  have hfinN := receiveFinish_spec logfile s fs mpath [] m hload hdiff
  refine ⟨?_, ?_, ?_⟩
  · intro hlow
    have hc1 : ¬ (m.opset < DEFAULT_ONNX_OPSET ∧ m.opset ≥ MINIMUM_ONNX_OPSET) := by
      rintro ⟨-, hge⟩
      exact absurd hlow (not_lt.mpr hge)
    rw [heq, if_neg hc1, if_pos hlow]
    exact ⟨rfl, rfl, rfl⟩
  · intro hge hltd
    rw [heq, if_pos ⟨hltd, hge⟩]
    refine ⟨?_, ?_⟩
    · rw [hfinA.1, hchk]
      rfl
    · rw [hfinA.2, hchk]
      simp
  · intro hged
    have hc1 : ¬ (m.opset < DEFAULT_ONNX_OPSET ∧ m.opset ≥ MINIMUM_ONNX_OPSET) := by
      rintro ⟨hlt, -⟩
      exact absurd hged (not_le.mpr hlt)
    have hc2 : ¬ m.opset < MINIMUM_ONNX_OPSET := by
      simp only [DEFAULT_ONNX_OPSET, MINIMUM_ONNX_OPSET] at hged ⊢
      omega
    rw [heq, if_neg hc1, if_neg hc2]
    refine ⟨?_, ?_⟩
    · rw [hfinN.1, hchk]
      rfl
    · rw [hfinN.2, hchk]
      simp only [if_true, List.nil_append, List.mem_cons, List.not_mem_nil]
      decide

/-- A concrete valid ONNX file with opset 12: supported but below the
recommended opset. -/
def opset12FS : FS := fun p =>
  if p = "model12.onnx" then some (FileData.onnx ⟨12, [[1, 3]], true⟩) else none

/-- A concrete build state pointing at the opset-12 model of
`opset12FS`. -/
def opset12State : State :=
  { model := Model.path "model12.onnx",
    inputs := [("x", some ⟨1⟩)],
    base_onnx_file := "b-base.onnx",
    opt_onnx_file := "b-opt.onnx",
    converted_onnx_file := "b-f16.onnx",
    original_inputs_file := "b-inputs.npy",
    intermediate_results := [],
    info := {},
    use_sdk := false }

/-- Witness for C3: the opset-12 model is accepted and the advisory is
emitted. -/
theorem receive_opset_three_way_witness :
    (receiveOnnxFire "log.txt" opset12State opset12FS).err = none ∧
    opsetAdvisoryMsg ∈ (receiveOnnxFire "log.txt" opset12State opset12FS).log :=
  (receive_opset_three_way "log.txt" opset12State opset12FS "model12.onnx"
      ⟨12, [[1, 3]], true⟩ rfl (by decide) (by decide)
      (by decide) (by decide) rfl).2.1 (by decide) (by decide)

/-- An empty file system. -/
def fsEmpty : FS := fun _ => none

/-- C2: with SDK dependencies available and a current artifact,
`CheckOnnxCompatibility.fire` raises if and only if the operator-support
oracle reports a non-empty unsupported-operator list or an empty overall
operator list; the raised error's message carries the comma-joined
unsupported list, every unsupported operator occurs verbatim inside that
message, and on success `intermediate_results` (and the file system) are
untouched. -/
theorem check_compat_spec (ext : Externals) (s : State) (fs : FS) (x : String)
    (rest : List String)
    (hdev : ext.devtoolsOk = true)
    (hres : s.intermediate_results = x :: rest) :
    ((checkCompatibilityFire ext s fs).err ≠ none ↔
       ((ext.checkOps x s.use_sdk).2 ≠ [] ∨ (ext.checkOps x s.use_sdk).1 = [])) ∧
    (((ext.checkOps x s.use_sdk).2 ≠ [] ∨ (ext.checkOps x s.use_sdk).1 = []) →
       (checkCompatibilityFire ext s fs).err =
         some (StageError.groqitStageError
           (compatibilityMsg (pyJoin ", " (ext.checkOps x s.use_sdk).2)))) ∧
    (∀ op ∈ (ext.checkOps x s.use_sdk).2, ∃ a b,
       (compatibilityMsg (pyJoin ", " (ext.checkOps x s.use_sdk).2)).data =
         a ++ op.data ++ b) ∧
    ((checkCompatibilityFire ext s fs).err = none →
       (checkCompatibilityFire ext s fs).state.intermediate_results =
         s.intermediate_results ∧ (checkCompatibilityFire ext s fs).fs = fs) := by
  have hinfix : ∀ op ∈ (ext.checkOps x s.use_sdk).2, ∃ a b,
      (compatibilityMsg (pyJoin ", " (ext.checkOps x s.use_sdk).2)).data =
        a ++ op.data ++ b := by
    intro op hop
    obtain ⟨a, b, hab⟩ := pyJoin_mem_infix ", " _ op hop
    refine ⟨"You model contains ONNX operation(s) that are not supported by Groq Compiler: **".data ++ a,
            b ++ "** Please replace these operation(s) in your model or contact sales@groq.com to request improved operation support in Groq Compiler.".data, ?_⟩
    simp only [compatibilityMsg, String.data_append, hab]
    simp [List.append_assoc]
  refine ⟨?_, ?_, hinfix, ?_⟩ <;>
  · rcases hq : ext.checkOps x s.use_sdk with ⟨ops, unsup⟩
    by_cases hcond : unsup.length = 0 ∧ ops.length ≠ 0
    · have hu : unsup = [] := List.length_eq_zero.mp hcond.1
      have ho : ops ≠ [] := fun h => hcond.2 (by simp [h])
      simp [checkCompatibilityFire, hdev, hres, hq, hcond, hu, ho]
    · have hc : ¬ (unsup = [] ∧ ¬ ops = []) := by
        rintro ⟨h1, h2⟩
        exact hcond ⟨by simp [h1], fun hl => h2 (List.length_eq_zero.mp hl)⟩
      have hiff : unsup ≠ [] ∨ ops = [] := by
        rcases Decidable.not_and_iff_or_not.mp hcond with h | h
        · exact Or.inl (fun he => h (by simp [he]))
        · exact Or.inr (List.length_eq_zero.mp (not_ne_iff.mp h))
      simp [checkCompatibilityFire, hdev, hres, hq, hc, hiff]

/-- Concrete externals whose operator-support oracle reports two
unsupported operators. -/
def compatExt : Externals :=
  { torchExport := fun _ _ => Except.error "unused",
    optimize := fun m => Except.ok m,
    convertFp16 := fun m => Except.ok m,
    checkOps := fun _ _ => (["Conv", "MatMul", "Foo", "Bar"], ["Foo", "Bar"]),
    devtoolsOk := true }

/-- A concrete build state whose current artifact is an optimized ONNX
file. -/
def compatState : State :=
  { model := Model.path "m.onnx",
    inputs := [],
    base_onnx_file := "c-base.onnx",
    opt_onnx_file := "c-opt.onnx",
    converted_onnx_file := "c-f16.onnx",
    original_inputs_file := "c-inputs.npy",
    intermediate_results := ["c-opt.onnx"],
    info := {},
    use_sdk := false }

/-- Witness for C2: with two unsupported operators the stage raises the
compatibility error whose message joins both of them. -/
theorem check_compat_spec_witness :
    (checkCompatibilityFire compatExt compatState fsEmpty).err =
      some (StageError.groqitStageError
        (compatibilityMsg (pyJoin ", " ["Foo", "Bar"]))) :=
  (check_compat_spec compatExt compatState fsEmpty "c-opt.onnx" [] rfl rfl).2.1
    (Or.inl (by decide))

/-- C4: for a `torch.nn.Module` model and an inputs mapping containing a
name that is not a parameter of the model's `forward` signature,
`ExportPytorchModel.fire` raises a `ValueError` whose message names the
offending input and the full valid parameter list, performs no external
call (in particular it does not invoke `torch.onnx.export`), and leaves
the state and the file system untouched. -/
theorem export_name_mismatch_rejects (logfile : String) (ext : Externals)
    (s : State) (fs : FS) (all_args : List String)
    (hm : s.model = Model.torchModule all_args)
    (hbad : ∃ n ∈ s.inputs.map Prod.fst, n ∉ all_args) :
    ∃ inp ∈ s.inputs.map Prod.fst, inp ∉ all_args ∧
      (exportPytorchFire logfile ext s fs).err =
        some (StageError.valueError (inputNotFoundMsg inp all_args)) ∧
      (exportPytorchFire logfile ext s fs).calls = [] ∧
      (exportPytorchFire logfile ext s fs).fs = fs ∧
      (exportPytorchFire logfile ext s fs).state = s := by
  obtain ⟨mo, inp0, bf, optf, convf, origf, ir, inf, usdk⟩ := s
  have hm1 : mo = Model.torchModule all_args := hm
  subst hm1
  have hfind : (((State.mk (Model.torchModule all_args) inp0 bf optf convf origf ir inf
      usdk).inputs.map Prod.fst).find?
        (fun inp => !(all_args.contains inp))).isSome := by
    rw [List.find?_isSome]
    obtain ⟨n, hn, hnot⟩ := hbad
    exact ⟨n, hn, by simp [hnot]⟩
  obtain ⟨inp, hfindl⟩ := Option.isSome_iff_exists.mp hfind
  have hmem := List.mem_of_find?_eq_some hfindl
  have hprop := List.find?_some hfindl
  have hninp : inp ∉ all_args := by simpa using hprop
  simp at hfindl
  obtain ⟨x, hfx⟩ := hfindl
  refine ⟨inp, hmem, hninp, ?_, ?_, ?_, ?_⟩ <;>
    simp [exportPytorchFire, hfx]

/-- A concrete `torch.nn.Module` state with one well-named and one
misnamed input. -/
def mismatchState : State :=
  { model := Model.torchModule ["x", "mask"],
    inputs := [("x", some ⟨1⟩), ("y", some ⟨2⟩)],
    base_onnx_file := "d-base.onnx",
    opt_onnx_file := "d-opt.onnx",
    converted_onnx_file := "d-f16.onnx",
    original_inputs_file := "d-inputs.npy",
    intermediate_results := [],
    info := {},
    use_sdk := false }

/-- Witness for C4 at the concrete misnamed input "y". -/
theorem export_name_mismatch_rejects_witness :
    ∃ inp ∈ mismatchState.inputs.map Prod.fst, inp ∉ ["x", "mask"] ∧
      (exportPytorchFire "log.txt" compatExt mismatchState fsEmpty).err =
        some (StageError.valueError (inputNotFoundMsg inp ["x", "mask"])) ∧
      (exportPytorchFire "log.txt" compatExt mismatchState fsEmpty).calls = [] ∧
      (exportPytorchFire "log.txt" compatExt mismatchState fsEmpty).fs = fsEmpty ∧
      (exportPytorchFire "log.txt" compatExt mismatchState fsEmpty).state = mismatchState :=
  export_name_mismatch_rejects "log.txt" compatExt mismatchState fsEmpty ["x", "mask"]
    rfl ⟨"y", by decide, by decide⟩

/-- The tail of `ExportPytorchModel.fire` always records the
`torch.onnx.export` invocation with exactly the positional inputs and
names it was given. -/
theorem exportFinish_calls (logfile : String) (ext : Externals) (s : State) (fs : FS)
    (d : List (Option Tensor)) (n : List String) :
    exportArgsOf (exportFinish logfile ext s fs d n).calls = some d ∧
    exportNamesOf (exportFinish logfile ext s fs d n).calls = some n := by
  unfold exportFinish
  cases hx : ext.torchExport d n with
  | error e => simp [exportArgsOf, exportNamesOf]
  | ok proto =>
    dsimp only
    split <;> simp [exportArgsOf, exportNamesOf]

/-- The tail of `ExportPytorchModel.fire` never raises a `ValueError`:
its failures are external exceptions or `GroqitStageError`s. -/
theorem exportFinish_not_valueError (logfile : String) (ext : Externals) (s : State)
    (fs : FS) (d : List (Option Tensor)) (n : List String) (msg : String) :
    (exportFinish logfile ext s fs d n).err ≠ some (StageError.valueError msg) := by
  unfold exportFinish
  cases hx : ext.torchExport d n with
  | error e => simp
  | ok proto =>
    dsimp only
    split <;> simp

/-- When the tail of `ExportPytorchModel.fire` succeeds, the new frontier
is the freshly written base ONNX file. -/
theorem exportFinish_success_results (logfile : String) (ext : Externals) (s : State)
    (fs : FS) (d : List (Option Tensor)) (n : List String) :
    (exportFinish logfile ext s fs d n).err = none →
    (exportFinish logfile ext s fs d n).state.intermediate_results =
      [s.base_onnx_file] := by
  unfold exportFinish
  cases hx : ext.torchExport d n with
  | error e => intro h; simp at h
  | ok proto =>
    dsimp only
    split <;> intro h
    · rfl
    · simp at h

/-- C8: for a `torch.nn.Module` model whose user-supplied input names all
match declared `forward` parameters, `ExportPytorchModel.fire` hands
`torch.onnx.export` exactly one positional value per declared parameter,
in signature order: the user's tensor when the name was supplied, the
unset placeholder `none` otherwise, with the declared parameter names as
input names. -/
theorem export_positional_per_param (logfile : String) (ext : Externals)
    (s : State) (fs : FS) (all_args : List String)
    (hm : s.model = Model.torchModule all_args)
    (hvalid : ∀ a ∈ s.inputs.map Prod.fst, a ∈ all_args) :
    exportArgsOf (exportPytorchFire logfile ext s fs).calls =
      some (all_args.map (fun arg => getInput s.inputs arg)) ∧
    exportNamesOf (exportPytorchFire logfile ext s fs).calls = some all_args := by
  obtain ⟨mo, inp0, bf, optf, convf, origf, ir, inf, usdk⟩ := s
  have hm1 : mo = Model.torchModule all_args := hm
  subst hm1
  have hvalid1 : ∀ a ∈ inp0.map Prod.fst, a ∈ all_args := hvalid
  have hfind : ((inp0.map Prod.fst).find? fun inp => !(all_args.contains inp)) = none := by
    rw [List.find?_eq_none]
    intro a ha
    simp [hvalid1 a ha]
  have hmap : (all_args.map fun arg =>
      if (inp0.map Prod.fst).contains arg = true then getInput inp0 arg else none) =
      all_args.map fun arg => getInput inp0 arg := by
    apply List.map_congr_left
    intro arg _
    by_cases hc : arg ∈ inp0.map Prod.fst
    · simp [hc]
    · have hg : getInput inp0 arg = none := by
        unfold getInput
        cases hf : inp0.find? (fun p => p.1 == arg) with
        | none => rfl
        | some p =>
          exfalso
          apply hc
          rw [List.mem_map]
          refine ⟨p, List.mem_of_find?_eq_some hf, ?_⟩
          have hp := List.find?_some hf
          simpa using hp
      simp [hc, hg]
  have hcalls := exportFinish_calls logfile ext
    (State.mk (Model.torchModule all_args) inp0 bf optf convf origf ir inf usdk) fs
    (all_args.map fun arg => getInput inp0 arg) all_args
  simp only [exportPytorchFire, hfind]
  rw [hmap]
  exact hcalls

/-- A concrete `torch.nn.Module` state supplying only the middle of
three declared parameters. -/
def partialState : State :=
  { model := Model.torchModule ["x", "y", "z"],
    inputs := [("y", some ⟨7⟩)],
    base_onnx_file := "e-base.onnx",
    opt_onnx_file := "e-opt.onnx",
    converted_onnx_file := "e-f16.onnx",
    original_inputs_file := "e-inputs.npy",
    intermediate_results := [],
    info := {},
    use_sdk := false }

/-- Witness for C8: the export receives one value per parameter, the
user's tensor in the middle slot and placeholders around it. -/
theorem export_positional_per_param_witness :
    exportArgsOf (exportPytorchFire "log.txt" compatExt partialState fsEmpty).calls =
      some [none, some ⟨7⟩, none] ∧
    exportNamesOf (exportPytorchFire "log.txt" compatExt partialState fsEmpty).calls =
      some ["x", "y", "z"] :=
  export_positional_per_param "log.txt" compatExt partialState fsEmpty ["x", "y", "z"]
    rfl (by decide)

/-- C10: for a `torch.jit.ScriptModule` model, `ExportPytorchModel.fire`
performs no validation of input names: the values are forwarded
positionally in the mapping's own order (with the mapping's keys as
input names), and the name-mismatch `ValueError` is never raised. -/
theorem script_module_no_name_validation (logfile : String) (ext : Externals)
    (s : State) (fs : FS)
    (hm : s.model = Model.scriptModule) :
    exportArgsOf (exportPytorchFire logfile ext s fs).calls =
      some (s.inputs.map Prod.snd) ∧
    exportNamesOf (exportPytorchFire logfile ext s fs).calls =
      some (s.inputs.map Prod.fst) ∧
    ∀ msg, (exportPytorchFire logfile ext s fs).err ≠
      some (StageError.valueError msg) := by
  obtain ⟨mo, inp0, bf, optf, convf, origf, ir, inf, usdk⟩ := s
  have hm1 : mo = Model.scriptModule := hm
  subst hm1
  have h1 := exportFinish_calls logfile ext
    (State.mk Model.scriptModule inp0 bf optf convf origf ir inf usdk) fs
    (inp0.map Prod.snd) (inp0.map Prod.fst)
  exact ⟨h1.1, h1.2, fun msg =>
    exportFinish_not_valueError logfile ext _ fs _ _ msg⟩

/-- A concrete `ScriptModule` state with two inputs, one of them already
an unset placeholder. -/
def scriptState : State :=
  { model := Model.scriptModule,
    inputs := [("a", some ⟨3⟩), ("b", none)],
    base_onnx_file := "f-base.onnx",
    opt_onnx_file := "f-opt.onnx",
    converted_onnx_file := "f-f16.onnx",
    original_inputs_file := "f-inputs.npy",
    intermediate_results := [],
    info := {},
    use_sdk := false }

/-- Witness for C10 at a concrete `ScriptModule` state. -/
theorem script_module_no_name_validation_witness :
    exportArgsOf (exportPytorchFire "log.txt" compatExt scriptState fsEmpty).calls =
      some [some ⟨3⟩, none] ∧
    exportNamesOf (exportPytorchFire "log.txt" compatExt scriptState fsEmpty).calls =
      some ["a", "b"] ∧
    ∀ msg, (exportPytorchFire "log.txt" compatExt scriptState fsEmpty).err ≠
      some (StageError.valueError msg) :=
  script_module_no_name_validation "log.txt" compatExt scriptState fsEmpty rfl

/-- When the tail of `ReceiveOnnxModel.fire` succeeds, the new frontier
is the freshly moved base ONNX file. -/
theorem receiveFinish_success_results (logfile : String) (s : State) (fs : FS)
    (mpath : String) (log : List String) :
    (receiveFinish logfile s fs mpath log).err = none →
    (receiveFinish logfile s fs mpath log).state.intermediate_results =
      [s.base_onnx_file] := by
  unfold receiveFinish
  dsimp only
  split <;> intro h
  · rfl
  · simp at h

/-- C7: whenever an artifact-producing stage's `fire` returns without
raising, the returned state's `intermediate_results` is exactly the
singleton of the artifact path that stage just produced (the list is
replaced, never appended to): the base ONNX file for `ReceiveOnnxModel`
and `ExportPytorchModel`, the optimized file for `OptimizeOnnxModel`,
and the fp16 file for `ConvertOnnxToFp16`. -/
theorem success_singleton_results :
    (∀ logfile s fs, (receiveOnnxFire logfile s fs).err = none →
       (receiveOnnxFire logfile s fs).state.intermediate_results =
         [s.base_onnx_file]) ∧
    (∀ logfile ext s fs, (exportPytorchFire logfile ext s fs).err = none →
       (exportPytorchFire logfile ext s fs).state.intermediate_results =
         [s.base_onnx_file]) ∧
    (∀ logfile ext s fs, (optimizeOnnxFire logfile ext s fs).err = none →
       (optimizeOnnxFire logfile ext s fs).state.intermediate_results =
         [s.opt_onnx_file]) ∧
    (∀ logfile ext s fs, (convertFp16Fire logfile ext s fs).err = none →
       (convertFp16Fire logfile ext s fs).state.intermediate_results =
         [s.converted_onnx_file]) := by
  refine ⟨?_, ?_, ?_, ?_⟩
  · intro logfile s fs
    unfold receiveOnnxFire
    dsimp only
    repeat' split
    all_goals intro h
    all_goals first
      | exact Option.noConfusion h
      | exact receiveFinish_success_results _ _ _ _ _ h
  · intro logfile ext s fs
    unfold exportPytorchFire
    dsimp only
    repeat' split
    all_goals intro h
    all_goals first
      | exact Option.noConfusion h
      | exact exportFinish_success_results _ _ _ _ _ _ h
  · intro logfile ext s fs
    unfold optimizeOnnxFire
    dsimp only
    repeat' split
    all_goals intro h
    all_goals first
      | exact Option.noConfusion h
      | rfl
  · intro logfile ext s fs
    unfold convertFp16Fire
    dsimp only
    repeat' split
    all_goals intro h
    all_goals first
      | exact Option.noConfusion h
      | rfl

/-- A concrete ONNX file that the structural checker rejects
(`checkOk = false`), triggering the post-move validation failure. -/
def failFS : FS := fun p =>
  if p = "h.onnx" then some (FileData.onnx ⟨13, [[2]], false⟩) else none

/-- A concrete build state ingesting the checker-rejected file of
`failFS`. -/
def failState : State :=
  { model := Model.path "h.onnx",
    inputs := [("x", some ⟨1⟩)],
    base_onnx_file := "h-base.onnx",
    opt_onnx_file := "h-opt.onnx",
    converted_onnx_file := "h-f16.onnx",
    original_inputs_file := "h-inputs.npy",
    intermediate_results := [],
    info := { base_onnx_exported := true },
    use_sdk := false }

set_option maxRecDepth 4096 in
/-- Counterexample to C5: when `ReceiveOnnxModel.fire` raises because the
post-move artifact check fails, the model file has already been moved
(the source path is gone and the base slot is filled), the reference
inputs file has been created, and `state.info.base_onnx_exported` has
been flipped — so state and files are not left as they were before the
failing stage. -/
theorem stage_error_mutation_counterexample :
    (receiveOnnxFire "log.txt" failState failFS).err =
      some (StageError.groqitStageError (receiveProcessFailMsg "log.txt")) ∧
    (receiveOnnxFire "log.txt" failState failFS).fs "h.onnx" ≠ failFS "h.onnx" ∧
    (receiveOnnxFire "log.txt" failState failFS).fs "h-base.onnx" ≠
      failFS "h-base.onnx" ∧
    (receiveOnnxFire "log.txt" failState failFS).fs "h-inputs.npy" ≠
      failFS "h-inputs.npy" ∧
    (receiveOnnxFire "log.txt" failState failFS).state ≠ failState := by
  decide

/-- Any error raised from the tail of `ReceiveOnnxModel.fire` is the
post-validation processing failure. -/
theorem receiveFinish_err_eq (logfile : String) (s : State) (fs : FS)
    (mpath : String) (log : List String) (e : StageError) :
    (receiveFinish logfile s fs mpath log).err = some e →
    e = StageError.groqitStageError (receiveProcessFailMsg logfile) := by
  unfold receiveFinish
  dsimp only
  split <;> intro h
  · exact Option.noConfusion h
  · exact (Option.some.inj h).symm

/-- Any error raised from the tail of `ExportPytorchModel.fire` is either
the post-validation processing failure or a propagated exception of the
external exporter. -/
theorem exportFinish_err_cases (logfile : String) (ext : Externals) (s : State)
    (fs : FS) (d : List (Option Tensor)) (n : List String) (e : StageError) :
    (exportFinish logfile ext s fs d n).err = some e →
    e = StageError.groqitStageError (exportProcessFailMsg logfile) ∨
    ∃ msg, e = StageError.externalError msg := by
  unfold exportFinish
  cases hx : ext.torchExport d n with
  | error e1 =>
    dsimp only
    intro h
    exact Or.inr ⟨e1, (Option.some.inj h).symm⟩
  | ok proto =>
    dsimp only
    split <;> intro h
    · exact Option.noConfusion h
    · exact Or.inl (Option.some.inj h).symm

/-- C5 (amended): when `ReceiveOnnxModel.fire` or
`ExportPytorchModel.fire` raises any error other than the
post-transformation artifact-check failure or a propagated external
exception — i.e. any precondition/configuration failure (wrong model
type, non-.onnx path, dynamic dimensions, unsupported opset, misnamed
input) — the state and the file system are left exactly as they were
before the stage. -/
theorem stage_precondition_error_preserves :
    (∀ logfile s fs e, (receiveOnnxFire logfile s fs).err = some e →
        e ≠ StageError.groqitStageError (receiveProcessFailMsg logfile) →
        (∀ msg, e ≠ StageError.externalError msg) →
        (receiveOnnxFire logfile s fs).state = s ∧
        (receiveOnnxFire logfile s fs).fs = fs) ∧
    (∀ logfile ext s fs e, (exportPytorchFire logfile ext s fs).err = some e →
        e ≠ StageError.groqitStageError (exportProcessFailMsg logfile) →
        (∀ msg, e ≠ StageError.externalError msg) →
        (exportPytorchFire logfile ext s fs).state = s ∧
        (exportPytorchFire logfile ext s fs).fs = fs) := by
  constructor
  · intro logfile s fs e h h1 h2
    revert h
    unfold receiveOnnxFire
    dsimp only
    repeat' split
    all_goals intro h
    all_goals try cases Option.some.inj h
    all_goals first
      | exact absurd (receiveFinish_err_eq _ _ _ _ _ _ h) h1
      | exact absurd rfl (h2 "onnx.load failed")
      | exact ⟨by rw [zip_fst_snd], rfl⟩
      | exact ⟨rfl, rfl⟩
  · intro logfile ext s fs e h h1 h2
    revert h
    unfold exportPytorchFire
    dsimp only
    repeat' split
    all_goals intro h
    all_goals first
      | exact absurd (exportFinish_err_cases _ _ _ _ _ _ _ h) (by
          rintro (h3 | ⟨msg, h3⟩)
          · exact h1 h3
          · exact h2 msg h3)
      | exact ⟨rfl, rfl⟩

/-- Externals whose collaborators all succeed and whose oracle reports
full operator support. -/
def okExt : Externals :=
  { torchExport := fun _ _ => Except.ok ⟨13, [[1]], true⟩,
    optimize := fun m => Except.ok m,
    convertFp16 := fun m => Except.ok m,
    checkOps := fun _ _ => (["Conv"], []),
    devtoolsOk := true }

/-- A concrete build state whose current artifact is a valid ONNX file,
for the optimizer and fp16 stages. -/
def optState : State :=
  { model := Model.path "unused.onnx",
    inputs := [],
    base_onnx_file := "g-base.onnx",
    opt_onnx_file := "g-opt.onnx",
    converted_onnx_file := "g-f16.onnx",
    original_inputs_file := "g-inputs.npy",
    intermediate_results := ["g-in.onnx"],
    info := {},
    use_sdk := false }

/-- The file system holding the current artifact of `optState`. -/
def optFS : FS := fun p =>
  if p = "g-in.onnx" then some (FileData.onnx ⟨13, [[1]], true⟩) else none

set_option maxRecDepth 4096 in
/-- Witness for C7: concrete successful runs of the four
artifact-producing stages each leave the singleton of their own
artifact. -/
theorem success_singleton_results_witness :
    (receiveOnnxFire "log.txt" opset12State opset12FS).state.intermediate_results =
      [opset12State.base_onnx_file] ∧
    (exportPytorchFire "log.txt" okExt scriptState fsEmpty).state.intermediate_results =
      [scriptState.base_onnx_file] ∧
    (optimizeOnnxFire "log.txt" okExt optState optFS).state.intermediate_results =
      [optState.opt_onnx_file] ∧
    (convertFp16Fire "log.txt" okExt optState optFS).state.intermediate_results =
      [optState.converted_onnx_file] :=
  ⟨success_singleton_results.1 "log.txt" opset12State opset12FS (by decide),
   success_singleton_results.2.1 "log.txt" okExt scriptState fsEmpty (by decide),
   success_singleton_results.2.2.1 "log.txt" okExt optState optFS (by decide),
   success_singleton_results.2.2.2 "log.txt" okExt optState optFS (by decide)⟩

set_option maxRecDepth 8192 in
/-- Witness for C5 (amended): the dynamic-shape precondition failure
leaves the concrete state and file system untouched. -/
theorem stage_precondition_error_preserves_witness :
    (receiveOnnxFire "log.txt" dynState dynFS).state = dynState ∧
    (receiveOnnxFire "log.txt" dynState dynFS).fs = dynFS :=
  stage_precondition_error_preserves.1 "log.txt" dynState dynFS
    (StageError.groqitStageError (dynamicDimsMsg "log.txt"))
    (by decide) (by decide) (fun _ h => StageError.noConfusion h)

/-- The fields of `build.State` that no stage of `export.py` may change:
the model reference, the four artifact path slots, and the SDK flag. -/
def slotsUnchanged (s t : State) : Prop :=
  t.model = s.model ∧ t.base_onnx_file = s.base_onnx_file ∧
  t.opt_onnx_file = s.opt_onnx_file ∧
  t.converted_onnx_file = s.converted_onnx_file ∧
  t.original_inputs_file = s.original_inputs_file ∧
  t.use_sdk = s.use_sdk

/-- The `info` fields not owned by `ReceiveOnnxModel` (it owns only
`base_onnx_exported`): a run of that stage must keep all of these. -/
def receiveInfoFrame (i j : Info) : Prop :=
  j.opt_onnx_exported = i.opt_onnx_exported ∧
  j.converted_onnx_exported = i.converted_onnx_exported ∧
  j.opset = i.opset ∧
  j.opt_onnx_ops = i.opt_onnx_ops ∧
  j.opt_onnx_unsupported_ops = i.opt_onnx_unsupported_ops ∧
  j.opt_onnx_all_ops_supported = i.opt_onnx_all_ops_supported

/-- The `info` fields not owned by `ExportPytorchModel` (it owns
`opset` and `base_onnx_exported`). -/
def exportInfoFrame (i j : Info) : Prop :=
  j.opt_onnx_exported = i.opt_onnx_exported ∧
  j.converted_onnx_exported = i.converted_onnx_exported ∧
  j.opt_onnx_ops = i.opt_onnx_ops ∧
  j.opt_onnx_unsupported_ops = i.opt_onnx_unsupported_ops ∧
  j.opt_onnx_all_ops_supported = i.opt_onnx_all_ops_supported

/-- The `info` fields not owned by `OptimizeOnnxModel` (it owns only
`opt_onnx_exported`). -/
def optimizeInfoFrame (i j : Info) : Prop :=
  j.base_onnx_exported = i.base_onnx_exported ∧
  j.converted_onnx_exported = i.converted_onnx_exported ∧
  j.opset = i.opset ∧
  j.opt_onnx_ops = i.opt_onnx_ops ∧
  j.opt_onnx_unsupported_ops = i.opt_onnx_unsupported_ops ∧
  j.opt_onnx_all_ops_supported = i.opt_onnx_all_ops_supported

/-- The `info` fields not owned by `CheckOnnxCompatibility` (it owns
`opt_onnx_ops`, `opt_onnx_unsupported_ops` and
`opt_onnx_all_ops_supported`). -/
def compatInfoFrame (i j : Info) : Prop :=
  j.base_onnx_exported = i.base_onnx_exported ∧
  j.opt_onnx_exported = i.opt_onnx_exported ∧
  j.converted_onnx_exported = i.converted_onnx_exported ∧
  j.opset = i.opset

/-- The `info` fields not owned by `ConvertOnnxToFp16` (it owns only
`converted_onnx_exported`). -/
def convertInfoFrame (i j : Info) : Prop :=
  j.base_onnx_exported = i.base_onnx_exported ∧
  j.opt_onnx_exported = i.opt_onnx_exported ∧
  j.opset = i.opset ∧
  j.opt_onnx_ops = i.opt_onnx_ops ∧
  j.opt_onnx_unsupported_ops = i.opt_onnx_unsupported_ops ∧
  j.opt_onnx_all_ops_supported = i.opt_onnx_all_ops_supported

set_option maxRecDepth 4096 in
/-- Counterexample to C9: a successful `ReceiveOnnxModel.fire` does not
write only `state.base_onnx_file` — it also creates the reference-inputs
file at `state.original_inputs_file` (and removes the ingested source
file), so the claim's "writes only its own artifact slot" fails for the
ingestion stage. -/
theorem stage_slot_only_counterexample :
    ¬ (∀ p, p ≠ opset12State.base_onnx_file →
        (receiveOnnxFire "log.txt" opset12State opset12FS).fs p =
          opset12FS p) := by
  intro hall
  have h := hall "b-inputs.npy" (by decide)
  exact absurd h (by decide)

/-- C9 (amended): each stage's file writes are confined to its own
artifact slot plus, for the ingestion/export stages, the
reference-inputs file (ingestion also removes the source file it moves);
`CheckOnnxCompatibility` writes nothing; every stage leaves the model
reference, all four artifact path slots and the SDK flag of the state
unchanged; and every stage leaves all `info` fields it does not own
unchanged. -/
theorem stage_write_frame :
    (∀ logfile s fs mpath p, s.model = Model.path mpath →
        p ≠ s.base_onnx_file → p ≠ s.original_inputs_file → p ≠ mpath →
        (receiveOnnxFire logfile s fs).fs p = fs p) ∧
    (∀ logfile ext s fs p, p ≠ s.base_onnx_file → p ≠ s.original_inputs_file →
        (exportPytorchFire logfile ext s fs).fs p = fs p) ∧
    (∀ logfile ext s fs p, p ≠ s.opt_onnx_file →
        (optimizeOnnxFire logfile ext s fs).fs p = fs p) ∧
    (∀ ext s fs p, (checkCompatibilityFire ext s fs).fs p = fs p) ∧
    (∀ logfile ext s fs p, p ≠ s.converted_onnx_file →
        (convertFp16Fire logfile ext s fs).fs p = fs p) ∧
    (∀ logfile s fs, slotsUnchanged s (receiveOnnxFire logfile s fs).state) ∧
    (∀ logfile ext s fs, slotsUnchanged s (exportPytorchFire logfile ext s fs).state) ∧
    (∀ logfile ext s fs, slotsUnchanged s (optimizeOnnxFire logfile ext s fs).state) ∧
    (∀ ext s fs, slotsUnchanged s (checkCompatibilityFire ext s fs).state) ∧
    (∀ logfile ext s fs, slotsUnchanged s (convertFp16Fire logfile ext s fs).state) ∧
    (∀ logfile s fs,
        receiveInfoFrame s.info (receiveOnnxFire logfile s fs).state.info) ∧
    (∀ logfile ext s fs,
        exportInfoFrame s.info (exportPytorchFire logfile ext s fs).state.info) ∧
    (∀ logfile ext s fs,
        optimizeInfoFrame s.info (optimizeOnnxFire logfile ext s fs).state.info) ∧
    (∀ ext s fs,
        compatInfoFrame s.info (checkCompatibilityFire ext s fs).state.info) ∧
    (∀ logfile ext s fs,
        convertInfoFrame s.info (convertFp16Fire logfile ext s fs).state.info) := by
  refine ⟨?_, ?_, ?_, ?_, ?_, ?_, ?_, ?_, ?_, ?_, ?_, ?_, ?_, ?_, ?_⟩
  · intro logfile s fs mpath p hmodel hp1 hp2 hp3
    obtain ⟨mo, inp0, bf, optf, convf, origf, ir, inf, usdk⟩ := s
    have hm1 : mo = Model.path mpath := hmodel
    subst hm1
    dsimp only at hp1 hp2
    unfold receiveOnnxFire receiveFinish
    dsimp only
    repeat' split
    all_goals first
      | rfl
      | simp [fsWrite, fsMove, hp1, hp2, hp3]
  · intro logfile ext s fs p hp1 hp2
    unfold exportPytorchFire exportFinish
    dsimp only
    repeat' split
    all_goals first
      | rfl
      | simp [fsWrite, hp1, hp2]
  · intro logfile ext s fs p hp
    unfold optimizeOnnxFire
    dsimp only
    repeat' split
    all_goals first
      | rfl
      | simp [fsWrite, hp]
  · intro ext s fs p
    unfold checkCompatibilityFire
    dsimp only
    repeat' split
    all_goals rfl
  · intro logfile ext s fs p hp
    unfold convertFp16Fire
    dsimp only
    repeat' split
    all_goals first
      | rfl
      | simp [fsWrite, hp]
  · intro logfile s fs
    unfold receiveOnnxFire receiveFinish
    dsimp only
    repeat' split
    all_goals exact ⟨rfl, rfl, rfl, rfl, rfl, rfl⟩
  · intro logfile ext s fs
    unfold exportPytorchFire exportFinish
    dsimp only
    repeat' split
    all_goals exact ⟨rfl, rfl, rfl, rfl, rfl, rfl⟩
  · intro logfile ext s fs
    unfold optimizeOnnxFire
    dsimp only
    repeat' split
    all_goals exact ⟨rfl, rfl, rfl, rfl, rfl, rfl⟩
  · intro ext s fs
    unfold checkCompatibilityFire
    dsimp only
    repeat' split
    all_goals exact ⟨rfl, rfl, rfl, rfl, rfl, rfl⟩
  · intro logfile ext s fs
    unfold convertFp16Fire
    dsimp only
    repeat' split
    all_goals exact ⟨rfl, rfl, rfl, rfl, rfl, rfl⟩
  · intro logfile s fs
    unfold receiveOnnxFire receiveFinish
    dsimp only
    repeat' split
    all_goals exact ⟨rfl, rfl, rfl, rfl, rfl, rfl⟩
  · intro logfile ext s fs
    unfold exportPytorchFire exportFinish
    dsimp only
    repeat' split
    all_goals exact ⟨rfl, rfl, rfl, rfl, rfl⟩
  · intro logfile ext s fs
    unfold optimizeOnnxFire
    dsimp only
    repeat' split
    all_goals exact ⟨rfl, rfl, rfl, rfl, rfl, rfl⟩
  · intro ext s fs
    unfold checkCompatibilityFire
    dsimp only
    repeat' split
    all_goals exact ⟨rfl, rfl, rfl, rfl⟩
  · intro logfile ext s fs
    unfold convertFp16Fire
    dsimp only
    repeat' split
    all_goals exact ⟨rfl, rfl, rfl, rfl, rfl, rfl⟩

set_option maxRecDepth 4096 in
/-- Witness for C9 (amended): a path owned by no stage is untouched by a
successful ingestion and by a successful optimization. -/
theorem stage_write_frame_witness :
    (receiveOnnxFire "log.txt" opset12State opset12FS).fs "other.txt" =
      opset12FS "other.txt" ∧
    (optimizeOnnxFire "log.txt" okExt optState optFS).fs "unrelated.onnx" =
      optFS "unrelated.onnx" :=
  ⟨stage_write_frame.1 "log.txt" opset12State opset12FS "model12.onnx" "other.txt"
      rfl (by decide) (by decide) (by decide),
   stage_write_frame.2.2.1 "log.txt" okExt optState optFS "unrelated.onnx" (by decide)⟩
